import Mathlib

/-!
# Verification of the Headlock rendezvous coordinator

Shallow embedding of `src/session_manager.py` and `src/server.py` from the
`agent-headlock` repository.

Modelling conventions:

* Python dicts become association lists (`List (κ × α)`) with
  insert-or-replace (`dinsert`), first-match lookup (`dlookup`) and
  key deletion (`derase`); keys are unique by construction.
* `asyncio.Event` objects live in a heap `events : List (Nat × Bool)`
  keyed by an allocation counter.  `self._instruction_events` maps a
  session id to the event id of its `asyncio.Event`; deleting that dict
  entry does not destroy the event itself, so a coroutine that captured
  a reference to the event before the deletion still waits on the heap
  entry — exactly as in Python.
* `datetime.utcnow()` becomes an explicit `now : Nat` argument.
* The single suspension point, `await event.wait()` inside
  `wait_for_instruction`, splits the coroutine into phases:
  `wait_enter` (everything before the await; either returns without
  suspending or records the captured event id), `wait_wake` (the code
  that runs once the event is set — if the event is already set at
  `wait_enter` time the coroutine resumes immediately), and
  `wait_timeout` (the `asyncio.TimeoutError` branch).
-/

set_option autoImplicit false

namespace Headlock

/-- Insert-or-replace for a Python dict modelled as an association list. -/
def dinsert {κ α : Type} [DecidableEq κ] : List (κ × α) → κ → α → List (κ × α)
  | [], key, v => [(key, v)]
  | (k, w) :: rest, key, v =>
    if k = key then (key, v) :: rest else (k, w) :: dinsert rest key v

/-- First-match lookup for a Python dict modelled as an association list. -/
def dlookup {κ α : Type} [DecidableEq κ] : List (κ × α) → κ → Option α
  | [], _ => none
  | (k, w) :: rest, key => if k = key then some w else dlookup rest key

/-- `del d[key]` for a Python dict modelled as an association list. -/
def derase {κ α : Type} [DecidableEq κ] : List (κ × α) → κ → List (κ × α)
  | [], _ => []
  | (k, w) :: rest, key => if k = key then rest else (k, w) :: derase rest key

/-- `models.SessionState` (`src/models.py`). -/
inductive SessionState : Type
  | WAITING
  | PROCESSING
  | COMPLETED
  | TERMINATED
deriving DecidableEq, Repr

/-- `models.HeadlockSession` (`src/models.py`): the per-conversation record. -/
structure HeadlockSession : Type where
  session_id : String
  state : SessionState
  created_at : Nat
  updated_at : Nat
  agent_context : Option String
  pending_instruction : Option String
  last_response : Option String
deriving DecidableEq, Repr

/-- The mutable state owned by `session_manager.SessionManager`, together with
the heap of `asyncio.Event` objects (see the module comment). -/
structure MgrState : Type where
  sessions : List (String × HeadlockSession)
  instruction_events : List (String × Nat)
  events : List (Nat × Bool)
  next_event : Nat
deriving DecidableEq, Repr

def MgrState.empty : MgrState :=
  { sessions := [], instruction_events := [], events := [], next_event := 0 }

/-- Whether the `asyncio.Event` with heap id `eid` is set. -/
def getEvent (σ : MgrState) (eid : Nat) : Bool :=
  (dlookup σ.events eid).getD false

/-- `event.set()` on the event with heap id `eid`. -/
def eventSet (σ : MgrState) (eid : Nat) : MgrState :=
  { σ with events := dinsert σ.events eid true }

/-- `event.clear()` on the event with heap id `eid`. -/
def eventClear (σ : MgrState) (eid : Nat) : MgrState :=
  { σ with events := dinsert σ.events eid false }

/-- `SessionManager.create_session`.  `fresh_id` stands for the uuid that
`HeadlockSession` generates when no explicit id is supplied. -/
def create_session (σ : MgrState) (session_id : Option String)
    (context : Option String) (fresh_id : String) (now : Nat) :
    HeadlockSession × MgrState :=
  let s : HeadlockSession :=
    { session_id := session_id.getD fresh_id
      state := SessionState.WAITING
      created_at := now
      updated_at := now
      agent_context := context
      pending_instruction := none
      last_response := none }
  (s, { σ with
          sessions := dinsert σ.sessions s.session_id s
          instruction_events := dinsert σ.instruction_events s.session_id σ.next_event
          events := dinsert σ.events σ.next_event false
          next_event := σ.next_event + 1 })

/-- `SessionManager.get_session`. -/
def get_session (σ : MgrState) (session_id : String) : Option HeadlockSession :=
  dlookup σ.sessions session_id

/-- `SessionManager.send_instruction`. -/
def send_instruction (σ : MgrState) (session_id : String) (instruction : String)
    (now : Nat) : Bool × MgrState :=
  match dlookup σ.sessions session_id with
  | none => (false, σ)
  | some s =>
    let s' := { s with pending_instruction := some instruction, updated_at := now }
    let σ' := { σ with sessions := dinsert σ.sessions session_id s' }
    match dlookup σ'.instruction_events session_id with
    | some eid => (true, eventSet σ' eid)
    | none => (true, σ')

/-- `SessionManager.tap_out`. -/
def tap_out (σ : MgrState) (session_id : String) (now : Nat) : Bool × MgrState :=
  match dlookup σ.sessions session_id with
  | none => (false, σ)
  | some s =>
    let s' := { s with state := SessionState.TERMINATED, updated_at := now }
    let σ' := { σ with sessions := dinsert σ.sessions session_id s' }
    match dlookup σ'.instruction_events session_id with
    | some eid => (true, eventSet σ' eid)
    | none => (true, σ')

/-- `SessionManager.update_context`. -/
def update_context (σ : MgrState) (session_id : String) (context : String)
    (now : Nat) : Bool × MgrState :=
  match dlookup σ.sessions session_id with
  | none => (false, σ)
  | some s =>
    let s' := { s with
                  agent_context := some context
                  last_response := some context
                  state := SessionState.WAITING
                  updated_at := now }
    (true, { σ with sessions := dinsert σ.sessions session_id s' })

/-- `SessionManager.remove_session`. -/
def remove_session (σ : MgrState) (session_id : String) : Bool × MgrState :=
  if (dlookup σ.sessions session_id).isSome then
    (true,
      { σ with
          sessions := derase σ.sessions session_id
          instruction_events :=
            if (dlookup σ.instruction_events session_id).isSome then
              derase σ.instruction_events session_id
            else σ.instruction_events })
  else
    (false, σ)

/-- Result of entering `SessionManager.wait_for_instruction`: either the
coroutine returns before its suspension point, or it is parked on the
`asyncio.Event` whose heap id it captured. -/
inductive WaitEnter : Type
  | ret (instruction : Option String) (should_terminate : Bool)
  | blocked (eid : Nat)
deriving DecidableEq, Repr

/-- `SessionManager.wait_for_instruction`, up to `await event.wait()`:
the missing-session and missing-event early returns, then the capture of
the event reference.  If the captured event is already set the coroutine
resumes immediately (continuing in `wait_wake`) without suspending. -/
def wait_enter (σ : MgrState) (session_id : String) : WaitEnter :=
  match dlookup σ.sessions session_id with
  | none => WaitEnter.ret none true
  | some _ =>
    match dlookup σ.instruction_events session_id with
    | none => WaitEnter.ret none true
    | some eid => WaitEnter.blocked eid

/-- `SessionManager.wait_for_instruction`, from the return of
`await event.wait()` onward: re-fetch the session, read the pending
instruction and the terminated flag, clear the captured event, clear the
pending instruction, and move to `PROCESSING` unless terminated. -/
def wait_wake (σ : MgrState) (session_id : String) (eid : Nat) (now : Nat) :
    (Option String × Bool) × MgrState :=
  match dlookup σ.sessions session_id with
  | none => ((none, true), σ)
  | some s =>
    let instruction := s.pending_instruction
    let should_terminate := s.state = SessionState.TERMINATED
    let σ' := eventClear σ eid
    let s' := { s with pending_instruction := none }
    let s'' :=
      if should_terminate then s'
      else { s' with state := SessionState.PROCESSING, updated_at := now }
    ((instruction, decide should_terminate),
      { σ' with sessions := dinsert σ'.sessions session_id s'' })

/-- `SessionManager.wait_for_instruction`, `except asyncio.TimeoutError`
branch: return `(None, False)` touching nothing. -/
def wait_timeout (σ : MgrState) : (Option String × Bool) × MgrState :=
  ((none, false), σ)

/-- Errors raised by the FastAPI endpoints in `src/server.py`:
`HTTPException(404, "Session not found")` and
`HTTPException(400, "Session is not waiting for input ...")`. -/
inductive HApiError : Type
  | NotFound
  | InvalidState
deriving DecidableEq, Repr

/-- `models.SendInstructionResponse`. -/
structure SendInstructionResponse : Type where
  success : Bool
  message : String
deriving DecidableEq, Repr

/-- The serialized event `broadcast_to_terminals` pushes to a sink:
`json.dumps({"type": update_type, "session_id": session_id, "data": data})`
with the `data` payload abstracted away. -/
structure WsMessage : Type where
  msg_type : String
  msg_session_id : String
deriving DecidableEq, Repr

/-- `POST /sessions/:session_id/instruct` (`server.send_instruction`):
404 when the session is unknown, 400 when its state is not `WAITING`,
otherwise delegate to `SessionManager.send_instruction` and broadcast an
`instruction_sent` event on success. -/
def http_send_instruction (σ : MgrState) (session_id instruction : String)
    (now : Nat) :
    Except HApiError (SendInstructionResponse × MgrState × List WsMessage) :=
  match dlookup σ.sessions session_id with
  | none => Except.error HApiError.NotFound
  | some s =>
    if s.state ≠ SessionState.WAITING then Except.error HApiError.InvalidState
    else
      let r := send_instruction σ session_id instruction now
      Except.ok
        ({ success := r.1
           message := if r.1 then "Instruction sent" else "Failed to send instruction" },
         r.2,
         if r.1 then [{ msg_type := "instruction_sent", msg_session_id := session_id }] else [])

/-- `POST /sessions/:session_id/tap-out` (`server.tap_out`): 404 when the
session is unknown, otherwise delegate to `SessionManager.tap_out` and
broadcast a `session_terminated` event on success. -/
def http_tap_out (σ : MgrState) (session_id : String) (now : Nat) :
    Except HApiError (SendInstructionResponse × MgrState × List WsMessage) :=
  match dlookup σ.sessions session_id with
  | none => Except.error HApiError.NotFound
  | some _ =>
    let r := tap_out σ session_id now
    Except.ok
      ({ success := r.1
         message := if r.1 then "Tap out signal sent" else "Failed to send tap out" },
       r.2,
       if r.1 then [{ msg_type := "session_terminated", msg_session_id := session_id }] else [])

/-- `DELETE /sessions/:session_id` (`server.delete_session`): 404 when
`remove_session` reports failure. -/
def http_delete_session (σ : MgrState) (session_id : String) :
    Except HApiError (SendInstructionResponse × MgrState) :=
  let r := remove_session σ session_id
  if r.1 then Except.ok ({ success := true, message := "Session removed" }, r.2)
  else Except.error HApiError.NotFound

/-- The `"instruct"` message path of the WebSocket handlers
(`websocket_global` and `websocket_session` in `src/server.py`): with a
non-empty session id and instruction, they call
`session_manager.send_instruction` directly, with no state check. -/
def ws_instruct (σ : MgrState) (session_id instruction : String) (now : Nat) :
    Bool × MgrState :=
  send_instruction σ session_id instruction now

/-- `models.EnterHeadlockResponse` (the fields serialized by the MCP tools). -/
structure EnterHeadlockResponse : Type where
  session_id : String
  instruction : Option String
  should_terminate : Bool
deriving DecidableEq, Repr

/-- Progress of `_enter_headlock` / `_continue_headlock` up to the blocking
call: the resolved session id, the manager state at the moment the
coroutine blocks, the event broadcast just before blocking, and the
outcome of entering `wait_for_instruction`. -/
structure EnterProgress : Type where
  session_id : String
  mgr : MgrState
  published : WsMessage
  wait : WaitEnter
deriving DecidableEq, Repr

/-- `server._enter_headlock`, up to `wait_for_instruction`: look up the
session when an id was supplied; create it if missing, otherwise apply the
context update; broadcast `session_waiting`; enter the wait. -/
def enter_headlock_enter (σ : MgrState) (session_id : Option String)
    (context : Option String) (fresh_id : String) (now : Nat) : EnterProgress :=
  let existing :=
    match session_id with
    | none => none
    | some sid => get_session σ sid
  match existing with
  | none =>
    let r := create_session σ session_id context fresh_id now
    { session_id := r.1.session_id
      mgr := r.2
      published := { msg_type := "session_waiting", msg_session_id := r.1.session_id }
      wait := wait_enter r.2 r.1.session_id }
  | some s =>
    let r := update_context σ s.session_id (context.getD "") now
    { session_id := s.session_id
      mgr := r.2
      published := { msg_type := "session_waiting", msg_session_id := s.session_id }
      wait := wait_enter r.2 s.session_id }

/-- `server._enter_headlock`, from the return of `wait_for_instruction`
onward: package the pair into an `EnterHeadlockResponse`. -/
def enter_headlock_finish (σ : MgrState) (session_id : String) (eid now : Nat) :
    EnterHeadlockResponse × MgrState :=
  let r := wait_wake σ session_id eid now
  ({ session_id := session_id, instruction := r.1.1, should_terminate := r.1.2 }, r.2)

/-- `server._continue_headlock`, up to `wait_for_instruction`: 404 when the
session is unknown; otherwise apply the context update (which re-arms the
state to `WAITING`), broadcast `task_completed`, and enter the wait. -/
def continue_headlock_enter (σ : MgrState) (session_id : String)
    (context : Option String) (now : Nat) : Except HApiError EnterProgress :=
  match get_session σ session_id with
  | none => Except.error HApiError.NotFound
  | some _ =>
    let r := update_context σ session_id (context.getD "") now
    Except.ok
      { session_id := session_id
        mgr := r.2
        published := { msg_type := "task_completed", msg_session_id := session_id }
        wait := wait_enter r.2 session_id }

/-- `server._continue_headlock`, from the return of `wait_for_instruction`
onward: package the pair into an `EnterHeadlockResponse` exactly as
`_enter_headlock` does. -/
def continue_headlock_finish (σ : MgrState) (session_id : String) (eid now : Nat) :
    EnterHeadlockResponse × MgrState :=
  let r := wait_wake σ session_id eid now
  ({ session_id := session_id, instruction := r.1.1, should_terminate := r.1.2 }, r.2)

/-- Membership test on a list of sink ids. -/
def bmem (w : Nat) : List Nat → Bool
  | [] => false
  | x :: xs => if x = w then true else bmem w xs

/-- The observer-bus registry `active_websockets` of `src/server.py`:
each key ("global" or a session id) maps to its set of sinks, a sink being
identified by a heap id.  Whether a sink's `send_text` raises is modelled
by a predicate `fails` supplied to `broadcast_to_terminals`. -/
structure BusState : Type where
  active_websockets : List (String × List Nat)
deriving DecidableEq, Repr

/-- The `for ws in active_websockets[key]` loop body of
`broadcast_to_terminals`: successful sends are delivered, failing sinks
are collected as dead connections. -/
def sendLoop (fails : Nat → Bool) (msg : WsMessage) :
    List Nat → List (Nat × WsMessage) × List Nat
  | [] => ([], [])
  | w :: ws =>
    let r := sendLoop fails msg ws
    if fails w then (r.1, w :: r.2) else ((w, msg) :: r.1, r.2)

/-- One group block of `broadcast_to_terminals`: if the key is registered,
send to every member, then subtract the dead connections from the group. -/
def broadcastGroup (fails : Nat → Bool) (msg : WsMessage) (key : String)
    (β : BusState) : BusState × List (Nat × WsMessage) :=
  match dlookup β.active_websockets key with
  | none => (β, [])
  | some group =>
    let r := sendLoop fails msg group
    ({ active_websockets :=
         dinsert β.active_websockets key (group.filter (fun w => !(bmem w r.2))) },
     r.1)

/-- `server.broadcast_to_terminals`: push the serialized event to the
session-specific group, then to the `"global"` group; return the updated
registry and the successful deliveries. -/
def broadcast_to_terminals (fails : Nat → Bool) (session_id update_type : String)
    (β : BusState) : BusState × List (Nat × WsMessage) :=
  let msg : WsMessage := { msg_type := update_type, msg_session_id := session_id }
  let r1 := broadcastGroup fails msg session_id β
  let r2 := broadcastGroup fails msg "global" r1.1
  (r2.1, r1.2 ++ r2.2)

/-- A concrete one-session manager state shared by the concrete scenarios
below: session `"s1"` was created at time 0 with context `"boot"`; its
`asyncio.Event` has heap id 0 and is unset. -/
def σ_base : MgrState :=
  (create_session MgrState.empty (some "s1") (some "boot") "s1" 0).2

/-- A reachable state in which session `"s1"` is `PROCESSING` with a pending
instruction: an instruction was delivered and consumed (moving the session
to `PROCESSING`), then a second one was pushed through the WebSocket
`"instruct"` path, which performs no state check. -/
def σ_processing : MgrState :=
  (ws_instruct (wait_wake (send_instruction σ_base "s1" "a" 1).2 "s1" 0 2).2
    "s1" "old" 3).2

/-- `σ_base` after the operator tapped out: session `"s1"` is `TERMINATED`
and its event is set. -/
def σ_tapped : MgrState := (tap_out σ_base "s1" 1).2

/-- A concrete observer-bus registry: sinks 1 and 2 watch session `"s1"`,
sink 3 is registered under the global key. -/
def bus_demo : BusState :=
  { active_websockets := [("s1", [1, 2]), ("global", [3])] }

theorem dlookup_dinsert_self {κ α : Type} [DecidableEq κ]
    (d : List (κ × α)) (k : κ) (v : α) : dlookup (dinsert d k v) k = some v := by
  induction d with
  | nil => simp [dinsert, dlookup]
  | cons p rest ih =>
    by_cases h : p.1 = k
    · simp [dinsert, dlookup, h]
    · simp [dinsert, dlookup, h, ih]

theorem dlookup_dinsert_ne {κ α : Type} [DecidableEq κ]
    (d : List (κ × α)) (k k' : κ) (v : α) (hne : k ≠ k') :
    dlookup (dinsert d k v) k' = dlookup d k' := by
  induction d with
  | nil => simp [dinsert, dlookup, hne]
  | cons p rest ih =>
    by_cases h : p.1 = k
    · simp [dinsert, dlookup, h, hne]
    · simp [dinsert, dlookup, h, ih]

theorem bmem_iff (w : Nat) (l : List Nat) : bmem w l = true ↔ w ∈ l := by
  induction l with
  | nil => simp [bmem]
  | cons x xs ih =>
    by_cases h : x = w
    · simp [bmem, h]
    · simp [bmem, h, ih]
      intro h2
      exact absurd h2.symm h

/-- A sink receives the message from the send loop exactly when it belongs
to the group and its push does not fail. -/
theorem sendLoop_delivered (fails : Nat → Bool) (msg : WsMessage) (g : List Nat)
    (w : Nat) (m : WsMessage) :
    (w, m) ∈ (sendLoop fails msg g).1 ↔ w ∈ g ∧ fails w = false ∧ m = msg := by
  induction g with
  | nil => simp [sendLoop]
  | cons x xs ih =>
    by_cases h : fails x
    · simp only [sendLoop, h, if_pos, List.mem_cons]
      rw [ih]
      constructor
      · rintro ⟨h1, h2, h3⟩
        exact ⟨Or.inr h1, h2, h3⟩
      · rintro ⟨h1 | h1, h2, h3⟩
        · rw [h1] at h2
          rw [h] at h2
          cases h2
        · exact ⟨h1, h2, h3⟩
    · simp only [sendLoop, Bool.not_eq_true] at h ⊢
      simp only [h, Bool.false_eq_true, if_false, List.mem_cons, Prod.mk.injEq]
      rw [ih]
      constructor
      · rintro (⟨h1, h2⟩ | ⟨h1, h2, h3⟩)
        · exact ⟨Or.inl h1, h1 ▸ h, h2⟩
        · exact ⟨Or.inr h1, h2, h3⟩
      · rintro ⟨h1 | h1, h2, h3⟩
        · exact Or.inl ⟨h1, h3⟩
        · exact Or.inr ⟨h1, h2, h3⟩

/-- A sink ends up among the dead connections exactly when it belongs to
the group and its push fails. -/
theorem sendLoop_dead (fails : Nat → Bool) (msg : WsMessage) (g : List Nat) (w : Nat) :
    w ∈ (sendLoop fails msg g).2 ↔ w ∈ g ∧ fails w = true := by
  induction g with
  | nil => simp [sendLoop]
  | cons x xs ih =>
    by_cases h : fails x
    · simp only [sendLoop, h, if_pos, List.mem_cons]
      rw [ih]
      constructor
      · rintro (h1 | ⟨h1, h2⟩)
        · exact ⟨Or.inl h1, h1 ▸ h⟩
        · exact ⟨Or.inr h1, h2⟩
      · rintro ⟨h1 | h1, h2⟩
        · exact Or.inl h1
        · exact Or.inr ⟨h1, h2⟩
    · simp only [sendLoop, Bool.not_eq_true] at h ⊢
      simp only [h, Bool.false_eq_true, if_false, List.mem_cons]
      rw [ih]
      constructor
      · rintro ⟨h1, h2⟩
        exact ⟨Or.inr h1, h2⟩
      · rintro ⟨h1 | h1, h2⟩
        · rw [h1] at h2
          rw [h] at h2
          cases h2
        · exact ⟨h1, h2⟩

theorem broadcastGroup_some (fails : Nat → Bool) (msg : WsMessage) (key : String)
    (β : BusState) (group : List Nat)
    (h : dlookup β.active_websockets key = some group) :
    broadcastGroup fails msg key β =
      ({ active_websockets :=
           dinsert β.active_websockets key
             (group.filter (fun w => !(bmem w (sendLoop fails msg group).2))) },
       (sendLoop fails msg group).1) := by
  simp [broadcastGroup, h]

/-- Claim C1, evaluated at its failing input.  Session `"s1"` has a blocked
waiter; an instruction `"ls"` is delivered and, before the waiter resumes,
the operator terminates.  `tap_out` does unblock the waiter (the event is
set), but the waiter's return value is `(some "ls", true)`: the stale
instruction is handed to the waiter alongside `should_terminate = true`,
where the claim demands `instruction = null`. -/
theorem tap_out_stale_instruction_delivered :
    getEvent (tap_out (send_instruction σ_base "s1" "ls" 1).2 "s1" 2).2 0 = true ∧
    (wait_wake (tap_out (send_instruction σ_base "s1" "ls" 1).2 "s1" 2).2 "s1" 0 3).1
      = (some "ls", true) := by
  decide

/-- Claim C2, evaluated at its failing input.  Session `"s1"` has a waiter
blocked on event 0.  `remove_session` succeeds but never sets that event,
so the waiter is not woken: the event stays unset, no later operation on
the removed id can set it (`send_instruction` and `tap_out` both fail
without touching it), and when the waiter's bounded wait finally times out
it returns `(none, false)` — not the `terminated = true` the claim
requires. -/
theorem remove_leaves_waiter_blocked :
    wait_enter σ_base "s1" = WaitEnter.blocked 0 ∧
    (remove_session σ_base "s1").1 = true ∧
    getEvent (remove_session σ_base "s1").2 0 = false ∧
    (send_instruction (remove_session σ_base "s1").2 "s1" "x" 9).1 = false ∧
    getEvent (send_instruction (remove_session σ_base "s1").2 "s1" "x" 9).2 0 = false ∧
    (tap_out (remove_session σ_base "s1").2 "s1" 9).1 = false ∧
    getEvent (tap_out (remove_session σ_base "s1").2 "s1" 9).2 0 = false ∧
    wait_timeout (remove_session σ_base "s1").2
      = ((none, false), (remove_session σ_base "s1").2) := by
  decide

/-- Claim C3, counterexample.  The WebSocket `"instruct"` path is an
operator-facing entry point that delivers to a `PROCESSING` conversation
with a pending value: it reports success and silently overwrites the
pending instruction instead of rejecting with InvalidState. -/
theorem ws_instruct_overwrites_processing :
    (get_session σ_processing "s1").map (fun u => u.state)
      = some SessionState.PROCESSING ∧
    (get_session σ_processing "s1").map (fun u => u.pending_instruction)
      = some (some "old") ∧
    (ws_instruct σ_processing "s1" "new" 4).1 = true ∧
    (get_session (ws_instruct σ_processing "s1" "new" 4).2 "s1").map
        (fun u => u.pending_instruction)
      = some (some "new") := by
  decide

/-- Claim C3 as amended: delivery through the HTTP instruct endpoint to a
conversation whose state is not `WAITING` is rejected as an InvalidState
error; the endpoint aborts before calling the session manager, so the
pending instruction is untouched. -/
theorem http_instruct_rejects_not_waiting (σ : MgrState) (sid instr : String)
    (now : Nat) (s : HeadlockSession)
    (hs : dlookup σ.sessions sid = some s)
    (hst : s.state ≠ SessionState.WAITING) :
    http_send_instruction σ sid instr now = Except.error HApiError.InvalidState := by
  simp [http_send_instruction, hs, hst]

theorem http_instruct_rejects_not_waiting_witness :
    http_send_instruction σ_processing "s1" "x" 9
      = Except.error HApiError.InvalidState :=
  http_instruct_rejects_not_waiting σ_processing "s1" "x" 9
    ⟨"s1", SessionState.PROCESSING, 0, 3, some "boot", some "old", none⟩
    (by decide) (by decide)

/-- Claim C4: a timed-out bounded wait returns "no value" and changes
nothing — not the state, not the pending value, not the wake signal.  A
delivery arriving after the timeout sets the event, the subsequent wait on
the same conversation still blocks on the same event, and its wake
consumes exactly the delivered instruction with `should_terminate = false`
(no lost wakeup across a timeout; the signal is cleared only by
`wait_wake`, never by the timeout branch). -/
theorem wait_timeout_frame (σ : MgrState) (sid instr : String)
    (s : HeadlockSession) (eid now now2 : Nat)
    (hs : dlookup σ.sessions sid = some s)
    (hterm : s.state ≠ SessionState.TERMINATED)
    (he : dlookup σ.instruction_events sid = some eid) :
    wait_timeout σ = ((none, false), σ) ∧
    (send_instruction σ sid instr now).1 = true ∧
    getEvent (send_instruction σ sid instr now).2 eid = true ∧
    wait_enter (send_instruction σ sid instr now).2 sid = WaitEnter.blocked eid ∧
    (wait_wake (send_instruction σ sid instr now).2 sid eid now2).1 = (some instr, false) := by
  refine ⟨rfl, ?_, ?_, ?_, ?_⟩ <;>
    simp [send_instruction, hs, he, wait_enter, wait_wake, getEvent, eventSet,
      eventClear, dlookup_dinsert_self, hterm]

theorem wait_timeout_frame_witness :
    wait_timeout σ_base = ((none, false), σ_base) ∧
    (send_instruction σ_base "s1" "go" 1).1 = true ∧
    getEvent (send_instruction σ_base "s1" "go" 1).2 0 = true ∧
    wait_enter (send_instruction σ_base "s1" "go" 1).2 "s1" = WaitEnter.blocked 0 ∧
    (wait_wake (send_instruction σ_base "s1" "go" 1).2 "s1" 0 2).1 = (some "go", false) :=
  wait_timeout_frame σ_base "s1" "go"
    ⟨"s1", SessionState.WAITING, 0, 0, some "boot", none, none⟩ 0 1 2
    (by decide) (by decide) (by decide)

/-- Claim C5: signal-before-wait is safe.  `begin` with no session id
creates a fresh conversation and blocks on its (unset) event; a `deliver`
that follows stores the instruction and sets the event, so the blocked
`begin` wakes — and a not-yet-blocked caller entering afterwards heads
into the same already-set event, missing nothing — and the response is
exactly the delivered instruction with `should_terminate = false`. -/
theorem begin_then_deliver (σ : MgrState) (fresh ctx instr : String)
    (now1 now2 now3 : Nat) :
    (enter_headlock_enter σ none (some ctx) fresh now1).session_id = fresh ∧
    (enter_headlock_enter σ none (some ctx) fresh now1).wait
      = WaitEnter.blocked σ.next_event ∧
    getEvent (enter_headlock_enter σ none (some ctx) fresh now1).mgr σ.next_event = false ∧
    (send_instruction (enter_headlock_enter σ none (some ctx) fresh now1).mgr
        fresh instr now2).1 = true ∧
    getEvent (send_instruction (enter_headlock_enter σ none (some ctx) fresh now1).mgr
        fresh instr now2).2 σ.next_event = true ∧
    wait_enter (send_instruction (enter_headlock_enter σ none (some ctx) fresh now1).mgr
        fresh instr now2).2 fresh = WaitEnter.blocked σ.next_event ∧
    (enter_headlock_finish
        (send_instruction (enter_headlock_enter σ none (some ctx) fresh now1).mgr
          fresh instr now2).2 fresh σ.next_event now3).1
      = { session_id := fresh, instruction := some instr, should_terminate := false } := by
  refine ⟨rfl, ?_, ?_, ?_, ?_, ?_, ?_⟩ <;>
    simp [enter_headlock_enter, enter_headlock_finish, create_session, get_session,
      send_instruction, wait_enter, wait_wake, getEvent, eventSet, eventClear,
      dlookup_dinsert_self]

/-- Claim C6: for a session id that was never created, all three
operator-facing operations fail — the manager functions return `False`
and leave the state untouched, and the HTTP endpoints raise 404. -/
theorem never_created_notfound (σ : MgrState) (sid instr : String) (now : Nat)
    (h : dlookup σ.sessions sid = none) :
    send_instruction σ sid instr now = (false, σ) ∧
    tap_out σ sid now = (false, σ) ∧
    remove_session σ sid = (false, σ) ∧
    http_send_instruction σ sid instr now = Except.error HApiError.NotFound ∧
    http_tap_out σ sid now = Except.error HApiError.NotFound ∧
    http_delete_session σ sid = Except.error HApiError.NotFound := by
  refine ⟨?_, ?_, ?_, ?_, ?_, ?_⟩
  · simp [send_instruction, h]
  · simp [tap_out, h]
  · simp [remove_session, h]
  · simp [http_send_instruction, h]
  · simp [http_tap_out, h]
  · simp [http_delete_session, remove_session, h]

theorem never_created_notfound_witness :
    send_instruction MgrState.empty "ghost" "x" 0 = (false, MgrState.empty) ∧
    tap_out MgrState.empty "ghost" 0 = (false, MgrState.empty) ∧
    remove_session MgrState.empty "ghost" = (false, MgrState.empty) ∧
    http_send_instruction MgrState.empty "ghost" "x" 0 = Except.error HApiError.NotFound ∧
    http_tap_out MgrState.empty "ghost" 0 = Except.error HApiError.NotFound ∧
    http_delete_session MgrState.empty "ghost" = Except.error HApiError.NotFound :=
  never_created_notfound MgrState.empty "ghost" "x" 0 (by decide)

/-- Claim C7: `continue` on an unknown id fails with NotFound; on an
existing conversation it applies the supplied context, re-arms the state
to `WAITING` before blocking, publishes a `task_completed` event, blocks
on the conversation's event, and its post-wake packaging is the very same
`(session_id, instruction, should_terminate)` triple `begin` builds. -/
theorem continue_headlock_contract (σ1 σ2 : MgrState) (sid : String)
    (ctx : Option String) (s : HeadlockSession) (eid now eid2 now3 : Nat)
    (h1 : dlookup σ1.sessions sid = none)
    (h2 : dlookup σ2.sessions sid = some s)
    (he : dlookup σ2.instruction_events sid = some eid) :
    continue_headlock_enter σ1 sid ctx now = Except.error HApiError.NotFound ∧
    (∃ p : EnterProgress,
      continue_headlock_enter σ2 sid ctx now = Except.ok p ∧
      p.session_id = sid ∧
      p.published = { msg_type := "task_completed", msg_session_id := sid } ∧
      get_session p.mgr sid =
        some { s with
                 agent_context := some (ctx.getD "")
                 last_response := some (ctx.getD "")
                 state := SessionState.WAITING
                 updated_at := now } ∧
      p.wait = WaitEnter.blocked eid) ∧
    continue_headlock_finish σ2 sid eid2 now3 = enter_headlock_finish σ2 sid eid2 now3 := by
  refine ⟨?_, ?_, rfl⟩
  · simp [continue_headlock_enter, get_session, h1]
  · refine ⟨{ session_id := sid
              mgr := (update_context σ2 sid (ctx.getD "") now).2
              published := { msg_type := "task_completed", msg_session_id := sid }
              wait := wait_enter (update_context σ2 sid (ctx.getD "") now).2 sid },
            ?_, rfl, rfl, ?_, ?_⟩
    · simp [continue_headlock_enter, get_session, h2]
    · simp [update_context, get_session, h2, dlookup_dinsert_self]
    · simp [update_context, h2, wait_enter, dlookup_dinsert_self, he]

theorem continue_headlock_contract_witness :
    continue_headlock_enter MgrState.empty "s1" (some "done") 1
      = Except.error HApiError.NotFound ∧
    (∃ p : EnterProgress,
      continue_headlock_enter σ_base "s1" (some "done") 1 = Except.ok p ∧
      p.session_id = "s1" ∧
      p.published = { msg_type := "task_completed", msg_session_id := "s1" } ∧
      get_session p.mgr "s1" =
        some { session_id := "s1", state := SessionState.WAITING, created_at := 0,
               updated_at := 1, agent_context := some "done",
               pending_instruction := none, last_response := some "done" } ∧
      p.wait = WaitEnter.blocked 0) ∧
    continue_headlock_finish σ_base "s1" 0 2 = enter_headlock_finish σ_base "s1" 0 2 :=
  continue_headlock_contract MgrState.empty σ_base "s1" (some "done")
    ⟨"s1", SessionState.WAITING, 0, 0, some "boot", none, none⟩ 0 1 0 2
    (by decide) (by decide) (by decide)

/-- Claim C8, counterexample.  Terminate is signaled first (`"s1"` is
`TERMINATED`, its event set); the racing `continue` then runs its re-arm:
the conversation is reset to `WAITING`, the still-set event wakes the new
waiter immediately, and it returns `(none, false)` — `should_terminate =
false`, erasing the termination the claim says must win. -/
theorem continue_erases_termination :
    (get_session σ_tapped "s1").map (fun u => u.state)
      = some SessionState.TERMINATED ∧
    (continue_headlock_enter σ_tapped "s1" (some "done") 2).toOption.map
        (fun p =>
          ((get_session p.mgr "s1").map (fun u => u.state),
            getEvent p.mgr 0,
            (wait_wake p.mgr "s1" 0 3).1))
      = some (some SessionState.WAITING, true, (none, false)) := by
  decide

/-- Claim C8 as amended: `continue`'s re-arm (`update_context`)
unconditionally resets the state to `WAITING`, whatever it was before —
so a termination observed before the re-arm is erased; only a termination
signaled after the re-arm completes is final, and then the next wake on
the conversation indeed returns `should_terminate = true`. -/
theorem continue_rearm_then_terminate (σ : MgrState) (sid ctx : String)
    (s : HeadlockSession) (eid now1 now2 now3 : Nat)
    (hs : dlookup σ.sessions sid = some s)
    (he : dlookup σ.instruction_events sid = some eid) :
    (get_session (update_context σ sid ctx now1).2 sid).map (fun u => u.state)
      = some SessionState.WAITING ∧
    (tap_out (update_context σ sid ctx now1).2 sid now2).1 = true ∧
    getEvent (tap_out (update_context σ sid ctx now1).2 sid now2).2 eid = true ∧
    ((wait_wake (tap_out (update_context σ sid ctx now1).2 sid now2).2 sid eid now3).1).2
      = true := by
  refine ⟨?_, ?_, ?_, ?_⟩ <;>
    simp [update_context, get_session, hs, he, tap_out, wait_wake, getEvent,
      eventSet, eventClear, dlookup_dinsert_self]

theorem continue_rearm_then_terminate_witness :
    (get_session (update_context σ_base "s1" "done" 1).2 "s1").map (fun u => u.state)
      = some SessionState.WAITING ∧
    (tap_out (update_context σ_base "s1" "done" 1).2 "s1" 2).1 = true ∧
    getEvent (tap_out (update_context σ_base "s1" "done" 1).2 "s1" 2).2 0 = true ∧
    ((wait_wake (tap_out (update_context σ_base "s1" "done" 1).2 "s1" 2).2 "s1" 0 3).1).2
      = true :=
  continue_rearm_then_terminate σ_base "s1" "done"
    ⟨"s1", SessionState.WAITING, 0, 0, some "boot", none, none⟩ 0 1 2 3
    (by decide) (by decide)

/-- Claim C9: on a publish for `sid`, every surviving member of the `sid`
group and of the global group is a non-failing member of the original
group (a failing sink is pruned before the next publish), every
non-failing sink of either group receives the event (one sink's failure
does not abort the others), the global group receives events of every
conversation, and nothing outside the `sid` group and the global group
receives anything (a session-specific sink sees only its own session's
events). -/
theorem broadcast_isolation (fails : Nat → Bool) (sid t : String) (β : BusState)
    (group gglobal : List Nat)
    (hsid : sid ≠ "global")
    (hg : dlookup β.active_websockets sid = some group)
    (hG : dlookup β.active_websockets "global" = some gglobal) :
    ∃ group2 gglobal2 : List Nat,
      dlookup (broadcast_to_terminals fails sid t β).1.active_websockets sid = some group2 ∧
      dlookup (broadcast_to_terminals fails sid t β).1.active_websockets "global" = some gglobal2 ∧
      (∀ w, w ∈ group2 → w ∈ group ∧ fails w = false) ∧
      (∀ w, w ∈ gglobal2 → w ∈ gglobal ∧ fails w = false) ∧
      (∀ w, w ∈ group → fails w = false →
        (w, { msg_type := t, msg_session_id := sid }) ∈ (broadcast_to_terminals fails sid t β).2) ∧
      (∀ w, w ∈ gglobal → fails w = false →
        (w, { msg_type := t, msg_session_id := sid }) ∈ (broadcast_to_terminals fails sid t β).2) ∧
      (∀ w m, (w, m) ∈ (broadcast_to_terminals fails sid t β).2 →
        m = { msg_type := t, msg_session_id := sid } ∧ (w ∈ group ∨ w ∈ gglobal)) := by
  have hGne : ("global" : String) ≠ sid := fun h => hsid h.symm
  have h1 := broadcastGroup_some fails { msg_type := t, msg_session_id := sid } sid β group hg
  have hlook1 : dlookup (broadcastGroup fails { msg_type := t, msg_session_id := sid } sid β).1.active_websockets "global"
      = some gglobal := by
    rw [h1]
    exact (dlookup_dinsert_ne _ _ _ _ hsid).trans hG
  have h2 := broadcastGroup_some fails { msg_type := t, msg_session_id := sid } "global"
    (broadcastGroup fails { msg_type := t, msg_session_id := sid } sid β).1 gglobal hlook1
  have hb : broadcast_to_terminals fails sid t β =
      ({ active_websockets :=
           dinsert
             (dinsert β.active_websockets sid
               (group.filter (fun w => !(bmem w (sendLoop fails { msg_type := t, msg_session_id := sid } group).2))))
             "global"
             (gglobal.filter (fun w => !(bmem w (sendLoop fails { msg_type := t, msg_session_id := sid } gglobal).2))) },
       (sendLoop fails { msg_type := t, msg_session_id := sid } group).1 ++
       (sendLoop fails { msg_type := t, msg_session_id := sid } gglobal).1) := by
    show ((broadcastGroup fails { msg_type := t, msg_session_id := sid } "global"
            (broadcastGroup fails { msg_type := t, msg_session_id := sid } sid β).1).1,
          (broadcastGroup fails { msg_type := t, msg_session_id := sid } sid β).2 ++
          (broadcastGroup fails { msg_type := t, msg_session_id := sid } "global"
            (broadcastGroup fails { msg_type := t, msg_session_id := sid } sid β).1).2) = _
    rw [h2, h1]
  refine ⟨group.filter (fun w => !(bmem w (sendLoop fails { msg_type := t, msg_session_id := sid } group).2)),
          gglobal.filter (fun w => !(bmem w (sendLoop fails { msg_type := t, msg_session_id := sid } gglobal).2)),
          ?_, ?_, ?_, ?_, ?_, ?_, ?_⟩
  · rw [hb]
    exact (dlookup_dinsert_ne _ _ _ _ hGne).trans (dlookup_dinsert_self _ _ _)
  · rw [hb]
    exact dlookup_dinsert_self _ _ _
  · intro w hw
    rw [List.mem_filter] at hw
    refine ⟨hw.1, ?_⟩
    by_contra hf
    have hd : w ∈ (sendLoop fails { msg_type := t, msg_session_id := sid } group).2 :=
      (sendLoop_dead _ _ _ _).mpr ⟨hw.1, Bool.of_not_eq_false hf⟩
    rw [← bmem_iff] at hd
    rw [hd] at hw
    simp at hw
  · intro w hw
    rw [List.mem_filter] at hw
    refine ⟨hw.1, ?_⟩
    by_contra hf
    have hd : w ∈ (sendLoop fails { msg_type := t, msg_session_id := sid } gglobal).2 :=
      (sendLoop_dead _ _ _ _).mpr ⟨hw.1, Bool.of_not_eq_false hf⟩
    rw [← bmem_iff] at hd
    rw [hd] at hw
    simp at hw
  · intro w hw hf
    rw [hb]
    exact List.mem_append.mpr
      (Or.inl ((sendLoop_delivered _ _ _ _ _).mpr ⟨hw, hf, rfl⟩))
  · intro w hw hf
    rw [hb]
    exact List.mem_append.mpr
      (Or.inr ((sendLoop_delivered _ _ _ _ _).mpr ⟨hw, hf, rfl⟩))
  · intro w m hm
    rw [hb] at hm
    rcases List.mem_append.mp hm with h | h
    · have := (sendLoop_delivered _ _ _ _ _).mp h
      exact ⟨this.2.2, Or.inl this.1⟩
    · have := (sendLoop_delivered _ _ _ _ _).mp h
      exact ⟨this.2.2, Or.inr this.1⟩

theorem broadcast_isolation_witness :
    ∃ group2 gglobal2 : List Nat,
      dlookup (broadcast_to_terminals (fun w => w == 2) "s1" "instruction_sent" bus_demo).1.active_websockets "s1" = some group2 ∧
      dlookup (broadcast_to_terminals (fun w => w == 2) "s1" "instruction_sent" bus_demo).1.active_websockets "global" = some gglobal2 ∧
      (∀ w, w ∈ group2 → w ∈ [1, 2] ∧ (fun w => w == 2) w = false) ∧
      (∀ w, w ∈ gglobal2 → w ∈ [3] ∧ (fun w => w == 2) w = false) ∧
      (∀ w, w ∈ [1, 2] → (fun w => w == 2) w = false →
        (w, { msg_type := "instruction_sent", msg_session_id := "s1" })
          ∈ (broadcast_to_terminals (fun w => w == 2) "s1" "instruction_sent" bus_demo).2) ∧
      (∀ w, w ∈ [3] → (fun w => w == 2) w = false →
        (w, { msg_type := "instruction_sent", msg_session_id := "s1" })
          ∈ (broadcast_to_terminals (fun w => w == 2) "s1" "instruction_sent" bus_demo).2) ∧
      (∀ w m, (w, m) ∈ (broadcast_to_terminals (fun w => w == 2) "s1" "instruction_sent" bus_demo).2 →
        m = { msg_type := "instruction_sent", msg_session_id := "s1" } ∧ (w ∈ [1, 2] ∨ w ∈ [3])) :=
  broadcast_isolation (fun w => w == 2) "s1" "instruction_sent" bus_demo [1, 2] [3]
    (by decide) (by decide) (by decide)

/-- Claim C10: a blocking wait entered for a conversation id with no
record (never created, or already removed) returns `(None, True)` from the
first early return of `wait_for_instruction`, before the suspension
point: no instruction, `terminated = true`, no NotFound error. -/
theorem wait_nonexistent_returns_terminated (σ : MgrState) (sid : String)
    (h : dlookup σ.sessions sid = none) :
    wait_enter σ sid = WaitEnter.ret none true := by
  simp [wait_enter, h]

theorem wait_nonexistent_returns_terminated_witness :
    dlookup (remove_session σ_base "s1").2.sessions "s1" = none ∧
    wait_enter (remove_session σ_base "s1").2 "s1" = WaitEnter.ret none true :=
  ⟨by decide,
    wait_nonexistent_returns_terminated (remove_session σ_base "s1").2 "s1" (by decide)⟩

end Headlock
